import Mathlib

/-!
Verification of the diablo-access accessibility wrapper.

Shallow embedding of `Source/utils/screen_reader.cpp` and
`Source/utils/android_accessibility.cpp`.

The platform services (Tolk, speech-dispatcher, the Android managed runtime)
are external; the embedding records the calls made into them as event traces
and abstracts their outcomes (class/method lookups, attachment results,
returned values) into an explicit "world" value that each call reads from.
-/

namespace devilution

/-! ### Facade: screen_reader.cpp -/

/-- The three build-time platform branches of screen_reader.cpp. -/
inductive Platform where
  | windows
  | android
  | linux
deriving DecidableEq

/-- Connection-acquisition calls made by `InitializeScreenReader`:
`Tolk_Load()` on Windows, `spd_open(...)` on Linux.  The Android branch of
the source performs no call (initialization is done by the Java activity). -/
inductive InitAction where
  | tolkLoad
  | spdOpen
deriving DecidableEq

/-- `InitializeScreenReader()` (screen_reader.cpp:26-37), as the list of
platform-connection calls it performs on each platform branch. -/
def InitializeScreenReader : Platform → List InitAction
  | Platform.windows => [InitAction.tolkLoad]
  | Platform.android => []
  | Platform.linux => [InitAction.spdOpen]

/-- Observable actions of `SpeakText`: the assignment to the remembered
`SpokenText` string, and the forward to the platform backend
(`Tolk_Output` / `SpeakAndroidText` / `spd_say`), which receives the
already-updated `SpokenText`. -/
inductive SpeakEvent where
  | updateSpoken (text : String)
  | backend (text : String) (force : Bool)
deriving DecidableEq

/-- `static std::string SpokenText;` is default-constructed, i.e. empty. -/
def initialSpokenText : String := ""

/-- `SpeakText(text, force)` (screen_reader.cpp:52-71).  The state is the
remembered `SpokenText` string; the result is the new state together with the
ordered trace of actions performed.  All three platform branches make exactly
one backend call with the updated `SpokenText`, modelled by the single
`SpeakEvent.backend` event. -/
def SpeakText (text : String) (force : Bool) (spokenText : String) :
    String × List SpeakEvent :=
  if !force && spokenText == text then
    (spokenText, [])
  else
    (text, [SpeakEvent.updateSpoken text, SpeakEvent.backend text force])

def isBackendEvent : SpeakEvent → Bool
  | SpeakEvent.backend _ _ => true
  | _ => false

/-- Number of backend invocations in a trace. -/
def countBackend (t : List SpeakEvent) : Nat :=
  t.countP isBackendEvent

/-! ### Android bridge: android_accessibility.cpp

The five cached `jmethodID` globals are modelled as booleans (null / non-null).
The outcomes the external JNI runtime hands to a single bridge call — whether
the thread was already attached, whether `AttachCurrentThread` succeeds, the
success of each fixed class/method lookup, and the values returned by the
managed methods — are collected in a `JNIWorld`.  Traces record attachment,
detachment, `InitializeJNIMethods` invocations and the managed-method calls.
`g_jvm` is assumed populated by `JNI_OnLoad`, as the source requires. -/

/-- The five cached method handles (android_accessibility.cpp:10-14), `true`
meaning non-null. -/
structure JNICache where
  g_isScreenReaderEnabled : Bool
  g_speak : Bool
  g_stop : Bool
  g_isReady : Bool
  g_handleGesture : Bool
deriving DecidableEq

/-- Outcomes supplied by the external JNI runtime during one bridge call. -/
structure JNIWorld where
  /-- `GetEnv` returns `JNI_OK`: the calling thread is already attached. -/
  alreadyAttached : Bool
  /-- `AttachCurrentThread` returns `JNI_OK` when attempted. -/
  attachSucceeds : Bool
  /-- `FindClass("org/diasurgical/devilutionx/AccessibilityManager")` non-null. -/
  findAccessibilityManagerClass : Bool
  /-- `GetStaticMethodID(..., "isScreenReaderEnabled", "()Z")` non-null. -/
  isScreenReaderEnabledID : Bool
  /-- `FindClass("org/diasurgical/devilutionx/AndroidTextToSpeech")` non-null. -/
  findTtsClass : Bool
  /-- `GetStaticMethodID(..., "speak", "(Ljava/lang/String;Z)V")` non-null. -/
  speakID : Bool
  /-- `GetStaticMethodID(..., "stop", "()V")` non-null. -/
  stopID : Bool
  /-- `GetStaticMethodID(..., "isReady", "()Z")` non-null. -/
  isReadyID : Bool
  /-- `FindClass("org/diasurgical/devilutionx/GestureDetector")` non-null. -/
  findGestureClass : Bool
  /-- `GetStaticMethodID(..., "handleGesture", "(IFFJ)I")` non-null. -/
  handleGestureID : Bool
  /-- Value returned by the managed `isScreenReaderEnabled` call. -/
  screenReaderEnabledResult : Bool
  /-- Value returned by the managed `isReady` call. -/
  isReadyResult : Bool
  /-- Value returned by the managed `handleGesture` call. -/
  gestureResult : Int
deriving DecidableEq

/-- `InitializeJNIMethods(env)` (android_accessibility.cpp:23-65).  Each
`GetStaticMethodID` result is assigned to its global before being checked, so
a failing later lookup leaves the earlier assignments in place. -/
def InitializeJNIMethods (w : JNIWorld) (c : JNICache) : Bool × JNICache :=
  if !w.findAccessibilityManagerClass then
    (false, c)
  else
    let c := { c with g_isScreenReaderEnabled := w.isScreenReaderEnabledID }
    if !c.g_isScreenReaderEnabled then
      (false, c)
    else if !w.findTtsClass then
      (false, c)
    else
      let c := { c with g_speak := w.speakID, g_stop := w.stopID,
                        g_isReady := w.isReadyID }
      if !(c.g_speak && c.g_stop && c.g_isReady) then
        (false, c)
      else if !w.findGestureClass then
        (false, c)
      else
        let c := { c with g_handleGesture := w.handleGestureID }
        if !c.g_handleGesture then
          (false, c)
        else
          (true, c)

/-- Observable actions of one bridge call. -/
inductive JNIEvent where
  /-- `AttachCurrentThread` succeeded (the call attached the thread). -/
  | attach
  /-- `DetachCurrentThread` was called. -/
  | detach
  /-- `InitializeJNIMethods` was invoked. -/
  | initCall
  | callIsScreenReaderEnabled
  | callSpeak (text : String) (force : Bool)
  | callStop
  | callIsReady
  | callHandleGesture
deriving DecidableEq

/-- The shared `GetEnv` / `AttachCurrentThread` prologue.  `none`: the thread
was not attached and `AttachCurrentThread` failed (early return).  `some a`:
an env was obtained, with `a` recording whether this call performed the
attach (the source's `attached` local). -/
def acquireEnv (w : JNIWorld) : Option Bool :=
  if w.alreadyAttached then some false
  else if w.attachSucceeds then some true
  else none

/-- Events of the prologue: an `attach` exactly when this call attached. -/
def attachTrace (attached : Bool) : List JNIEvent :=
  if attached then [JNIEvent.attach] else []

/-- Events of the `if (attached) DetachCurrentThread()` epilogue. -/
def detachTrace (attached : Bool) : List JNIEvent :=
  if attached then [JNIEvent.detach] else []

/-- `IsAndroidAccessibilityEnabled()` (android_accessibility.cpp:72-107).
Returns the boolean result, the cache after the call, and the event trace.
The managed call's class argument is a repeated `FindClass`, whose result the
source does not check; it is folded into the call event. -/
def IsAndroidAccessibilityEnabled (w : JNIWorld) (c : JNICache) :
    Bool × JNICache × List JNIEvent :=
  match acquireEnv w with
  | none => (false, c, [])
  | some attached =>
    if !c.g_isScreenReaderEnabled then
      match InitializeJNIMethods w c with
      | (false, c1) =>
        (false, c1, attachTrace attached ++ [JNIEvent.initCall] ++ detachTrace attached)
      | (true, c1) =>
        (w.screenReaderEnabledResult, c1,
          attachTrace attached ++ [JNIEvent.initCall, JNIEvent.callIsScreenReaderEnabled]
            ++ detachTrace attached)
    else
      (w.screenReaderEnabledResult, c,
        attachTrace attached ++ [JNIEvent.callIsScreenReaderEnabled] ++ detachTrace attached)

/-- `SpeakAndroidText(text, force)` (android_accessibility.cpp:115-155).
Void result: returns the cache after the call and the event trace. -/
def SpeakAndroidText (w : JNIWorld) (c : JNICache) (text : String) (force : Bool) :
    JNICache × List JNIEvent :=
  match acquireEnv w with
  | none => (c, [])
  | some attached =>
    if !c.g_speak then
      match InitializeJNIMethods w c with
      | (false, c1) =>
        (c1, attachTrace attached ++ [JNIEvent.initCall] ++ detachTrace attached)
      | (true, c1) =>
        (c1, attachTrace attached ++ [JNIEvent.initCall, JNIEvent.callSpeak text force]
          ++ detachTrace attached)
    else
      (c, attachTrace attached ++ [JNIEvent.callSpeak text force] ++ detachTrace attached)

/-- `StopAndroidSpeech()` (android_accessibility.cpp:160-192). -/
def StopAndroidSpeech (w : JNIWorld) (c : JNICache) : JNICache × List JNIEvent :=
  match acquireEnv w with
  | none => (c, [])
  | some attached =>
    if !c.g_stop then
      match InitializeJNIMethods w c with
      | (false, c1) =>
        (c1, attachTrace attached ++ [JNIEvent.initCall] ++ detachTrace attached)
      | (true, c1) =>
        (c1, attachTrace attached ++ [JNIEvent.initCall, JNIEvent.callStop]
          ++ detachTrace attached)
    else
      (c, attachTrace attached ++ [JNIEvent.callStop] ++ detachTrace attached)

/-- `IsAndroidTTSReady()` (android_accessibility.cpp:197-231). -/
def IsAndroidTTSReady (w : JNIWorld) (c : JNICache) :
    Bool × JNICache × List JNIEvent :=
  match acquireEnv w with
  | none => (false, c, [])
  | some attached =>
    if !c.g_isReady then
      match InitializeJNIMethods w c with
      | (false, c1) =>
        (false, c1, attachTrace attached ++ [JNIEvent.initCall] ++ detachTrace attached)
      | (true, c1) =>
        (w.isReadyResult, c1,
          attachTrace attached ++ [JNIEvent.initCall, JNIEvent.callIsReady]
            ++ detachTrace attached)
    else
      (w.isReadyResult, c,
        attachTrace attached ++ [JNIEvent.callIsReady] ++ detachTrace attached)

/-- `HandleAndroidGesture(action, x, y, time)` (android_accessibility.cpp:242-280).
The four arguments are forwarded verbatim to the managed call and never
inspected by the native code, so they are elided from the embedding; the
managed call's result is `w.gestureResult`. -/
def HandleAndroidGesture (w : JNIWorld) (c : JNICache) :
    Int × JNICache × List JNIEvent :=
  match acquireEnv w with
  | none => (0, c, [])
  | some attached =>
    if !c.g_handleGesture then
      match InitializeJNIMethods w c with
      | (false, c1) =>
        (0, c1, attachTrace attached ++ [JNIEvent.initCall] ++ detachTrace attached)
      | (true, c1) =>
        (w.gestureResult, c1,
          attachTrace attached ++ [JNIEvent.initCall, JNIEvent.callHandleGesture]
            ++ detachTrace attached)
    else
      (w.gestureResult, c,
        attachTrace attached ++ [JNIEvent.callHandleGesture] ++ detachTrace attached)

/-- Gesture type constants (android_accessibility.hpp:58-61). -/
def GESTURE_NONE : Int := 0

def GESTURE_SWIPE_LEFT : Int := 1

def GESTURE_SWIPE_RIGHT : Int := 2

def GESTURE_DOUBLE_TAP : Int := 3

/-- A bridge operation, for statements quantifying over all five entry
points.  `speak` carries the arguments of `SpeakAndroidText`. -/
inductive BridgeOp where
  | isEnabled
  | speak (text : String) (force : Bool)
  | stopSpeech
  | isReadyOp
  | gesture
deriving DecidableEq

/-- Cache and trace of one bridge operation (result value discarded). -/
def runOp (w : JNIWorld) (c : JNICache) : BridgeOp → JNICache × List JNIEvent
  | BridgeOp.isEnabled => (IsAndroidAccessibilityEnabled w c).2
  | BridgeOp.speak text force => SpeakAndroidText w c text force
  | BridgeOp.stopSpeech => StopAndroidSpeech w c
  | BridgeOp.isReadyOp => (IsAndroidTTSReady w c).2
  | BridgeOp.gesture => (HandleAndroidGesture w c).2

/-- A sequence of bridge calls, each with its own runtime outcomes (the
cache is the only state threaded between calls, as in the source). -/
def runOps (c : JNICache) : List (JNIWorld × BridgeOp) → JNICache × List JNIEvent
  | [] => (c, [])
  | (w, op) :: rest =>
    let r := runOp w c op
    let r2 := runOps r.1 rest
    (r2.1, r.2 ++ r2.2)

/-- The cached handle whose nullness guards `InitializeJNIMethods` in each
operation. -/
def guardHandle (c : JNICache) : BridgeOp → Bool
  | BridgeOp.isEnabled => c.g_isScreenReaderEnabled
  | BridgeOp.speak _ _ => c.g_speak
  | BridgeOp.stopSpeech => c.g_stop
  | BridgeOp.isReadyOp => c.g_isReady
  | BridgeOp.gesture => c.g_handleGesture

/-- All five cached handles are non-null. -/
def allSet (c : JNICache) : Bool :=
  c.g_isScreenReaderEnabled && c.g_speak && c.g_stop && c.g_isReady
    && c.g_handleGesture

/-- Events that are calls into the managed backend. -/
def isManagedCall : JNIEvent → Bool
  | JNIEvent.callIsScreenReaderEnabled => true
  | JNIEvent.callSpeak _ _ => true
  | JNIEvent.callStop => true
  | JNIEvent.callIsReady => true
  | JNIEvent.callHandleGesture => true
  | _ => false

/-! Concrete runtime outcomes and caches used to instantiate the theorems. -/

/-- Already-attached thread, every lookup succeeds, `handleGesture` returns 0. -/
def testWorldOk : JNIWorld :=
  ⟨true, true, true, true, true, true, true, true, true, true, false, true, 0⟩

/-- Unattached thread and `AttachCurrentThread` fails. -/
def testWorldAttachFail : JNIWorld :=
  ⟨false, false, true, true, true, true, true, true, true, true, false, true, 0⟩

/-- Already-attached thread, but the `AccessibilityManager` class lookup fails. -/
def testWorldNoAm : JNIWorld :=
  ⟨true, true, false, true, true, true, true, true, true, true, false, true, 0⟩

/-- Already-attached thread, first two lookups succeed, the
`AndroidTextToSpeech` class lookup fails. -/
def testWorldNoTts : JNIWorld :=
  ⟨true, true, true, true, false, true, true, true, true, true, false, true, 0⟩

/-- All five cached handles null (process start). -/
def testCacheNull : JNICache := ⟨false, false, false, false, false⟩

/-- All five cached handles resolved. -/
def testCacheFull : JNICache := ⟨true, true, true, true, true⟩

/-- Only `g_isScreenReaderEnabled` resolved (a run in which
`InitializeJNIMethods` failed after its first lookup). -/
def testCachePartial : JNICache := ⟨true, false, false, false, false⟩

/-! ### Claims about the facade -/

/-- Claim C1: with `force = false` and `text` equal to the remembered
last-spoken string, `SpeakText` is a no-op — the remembered string is
unchanged and no backend call is made — and hence two consecutive calls with
the same text and `force = false` reach the backend at most once. -/
theorem C1_speaktext_dedup :
    (∀ (text s : String), s = text → SpeakText text false s = (s, [])) ∧
    (∀ (text s : String),
      countBackend (SpeakText text false s).2 +
        countBackend (SpeakText text false (SpeakText text false s).1).2 ≤ 1) := by
  constructor
  · intro text s h
    subst h
    simp [SpeakText]
  · intro text s
    by_cases h : s = text
    · subst h
      simp [SpeakText, countBackend]
    · have hb : (s == text) = false := beq_eq_false_iff_ne.mpr h
      simp [SpeakText, hb, countBackend, isBackendEvent]

/-- Witness for C1 at a concrete repeated text. -/
theorem C1_speaktext_dedup_witness :
    SpeakText "level up" false "level up" = ("level up", []) :=
  C1_speaktext_dedup.1 "level up" "level up" rfl

/-- Claim C2: `SpeakText(text, true)` always reaches the backend, whatever
the remembered string is, and on every forced call — as on every call whose
text differs from the remembered string — the remembered string is overwritten
with `text` and the update precedes the backend invocation in the trace. -/
theorem C2_speaktext_force :
    (∀ (text s : String),
      SpeakText text true s =
        (text, [SpeakEvent.updateSpoken text, SpeakEvent.backend text true])) ∧
    (∀ (text s : String) (force : Bool), s ≠ text →
      SpeakText text force s =
        (text, [SpeakEvent.updateSpoken text, SpeakEvent.backend text force])) := by
  constructor
  · intro text s
    simp [SpeakText]
  · intro text s force h
    have hb : (s == text) = false := beq_eq_false_iff_ne.mpr h
    simp [SpeakText, hb]

/-- Witness for C2 at a concrete changed text. -/
theorem C2_speaktext_force_witness :
    SpeakText "b" false "a" =
      ("b", [SpeakEvent.updateSpoken "b", SpeakEvent.backend "b" false]) :=
  C2_speaktext_force.2 "b" "a" false (by decide)

/-- Counterexample to claim C7 as stated: `InitializeScreenReader` does not
acquire the platform connection on every platform backend — on the Android
branch it performs no acquisition call at all. -/
theorem C7_counterexample :
    ¬ (∀ p : Platform, InitializeScreenReader p ≠ []) :=
  fun h => h Platform.android rfl

/-- Claim C7 (amended): `InitializeScreenReader()` acquires the platform
connection on the Windows (`Tolk_Load`) and Linux (`spd_open`) backends; on
Android it performs no action, initialization being done by the Java
activity.  It has no return value and, being a total function of the
platform, always succeeds from the caller's point of view. -/
theorem C7_initialize_screen_reader :
    InitializeScreenReader Platform.windows = [InitAction.tolkLoad] ∧
    InitializeScreenReader Platform.linux = [InitAction.spdOpen] ∧
    InitializeScreenReader Platform.android = [] :=
  ⟨rfl, rfl, rfl⟩

/-- Claim C8: the remembered string starts out empty, so the very first call
`SpeakText("", false)` is suppressed as a duplicate: state unchanged, no
backend call. -/
theorem C8_first_empty_suppressed :
    initialSpokenText = "" ∧
    SpeakText "" false initialSpokenText = (initialSpokenText, []) := by
  exact ⟨rfl, by simp [SpeakText, initialSpokenText]⟩

/-! ### Helper lemmas about the Android bridge -/

/-- When `InitializeJNIMethods` reports success, the cache it leaves behind
has all five handles resolved. -/
lemma initJNI_allSet (w : JNIWorld) (c : JNICache) :
    (InitializeJNIMethods w c).1 = true → allSet (InitializeJNIMethods w c).2 = true := by
  rcases w with ⟨aA, aS, fam, sr, ftts, sp, st, ir, fg, hg, r1, r2, r3⟩
  cases fam <;> cases sr <;> cases ftts <;> cases sp <;> cases st <;> cases ir <;>
    cases fg <;> cases hg <;> simp [InitializeJNIMethods, allSet]

/-- Every bridge-operation trace is either empty (failed attach) or of the
form attach-prologue ++ body ++ detach-epilogue with no attach/detach in the
body. -/
lemma runOp_trace_shape (w : JNIWorld) (c : JNICache) (op : BridgeOp) :
    (runOp w c op).2 = [] ∨
      ∃ a mid, acquireEnv w = some a ∧
        (runOp w c op).2 = attachTrace a ++ mid ++ detachTrace a ∧
        JNIEvent.attach ∉ mid ∧ JNIEvent.detach ∉ mid := by
  rcases h : acquireEnv w with _ | a
  · cases op <;>
      simp [runOp, IsAndroidAccessibilityEnabled, SpeakAndroidText,
        StopAndroidSpeech, IsAndroidTTSReady, HandleAndroidGesture, h]
  · rcases hi : InitializeJNIMethods w c with ⟨ok, c1⟩
    right
    cases ok <;> cases op <;>
      simp only [runOp, IsAndroidAccessibilityEnabled, SpeakAndroidText,
        StopAndroidSpeech, IsAndroidTTSReady, HandleAndroidGesture, h, hi] <;>
      split <;>
      refine ⟨a, _, rfl, rfl, ?_, ?_⟩ <;> simp

/-- A bridge operation invokes `InitializeJNIMethods` only when its guarding
cached handle is null. -/
lemma runOp_initCall_guard (w : JNIWorld) (c : JNICache) (op : BridgeOp) :
    JNIEvent.initCall ∈ (runOp w c op).2 → guardHandle c op = false := by
  rcases h : acquireEnv w with _ | a
  · cases op <;>
      simp [runOp, IsAndroidAccessibilityEnabled, SpeakAndroidText,
        StopAndroidSpeech, IsAndroidTTSReady, HandleAndroidGesture, h]
  · rcases hi : InitializeJNIMethods w c with ⟨ok, c1⟩
    cases ok <;> cases op <;>
      simp only [runOp, guardHandle, IsAndroidAccessibilityEnabled, SpeakAndroidText,
        StopAndroidSpeech, IsAndroidTTSReady, HandleAndroidGesture, h, hi] <;>
      split <;> cases a <;> simp_all [attachTrace, detachTrace]

/-- With all handles already resolved, a bridge operation leaves the cache
unchanged and never invokes `InitializeJNIMethods`. -/
lemma runOp_allSet_skip (w : JNIWorld) (c : JNICache) (op : BridgeOp)
    (hc : allSet c = true) :
    (runOp w c op).1 = c ∧ JNIEvent.initCall ∉ (runOp w c op).2 := by
  simp only [allSet, Bool.and_eq_true] at hc
  obtain ⟨⟨⟨⟨h1, h2⟩, h3⟩, h4⟩, h5⟩ := hc
  rcases h : acquireEnv w with _ | a
  · cases op <;>
      simp [runOp, IsAndroidAccessibilityEnabled, SpeakAndroidText,
        StopAndroidSpeech, IsAndroidTTSReady, HandleAndroidGesture, h]
  · cases op <;>
      simp only [runOp, IsAndroidAccessibilityEnabled, SpeakAndroidText,
        StopAndroidSpeech, IsAndroidTTSReady, HandleAndroidGesture, h,
        h1, h2, h3, h4, h5] <;>
      cases a <;> simp [attachTrace, detachTrace]

/-- With all handles already resolved, an arbitrary sequence of bridge calls
(each with its own runtime outcomes) leaves the cache unchanged and never
re-resolves. -/
lemma runOps_allSet_skip (c : JNICache) (hc : allSet c = true)
    (ops : List (JNIWorld × BridgeOp)) :
    (runOps c ops).1 = c ∧ JNIEvent.initCall ∉ (runOps c ops).2 := by
  induction ops with
  | nil => simp [runOps]
  | cons p rest ih =>
    obtain ⟨w, op⟩ := p
    have h := runOp_allSet_skip w c op hc
    simp only [runOps, h.1]
    exact ⟨ih.1, by simp [h.2, ih.2]⟩

/-- If a bridge operation invoked `InitializeJNIMethods` and that invocation
succeeded, the cache the operation returns has all handles resolved. -/
lemma runOp_init_success_allSet (w : JNIWorld) (c : JNICache) (op : BridgeOp) :
    JNIEvent.initCall ∈ (runOp w c op).2 → (InitializeJNIMethods w c).1 = true →
      allSet (runOp w c op).1 = true := by
  intro hmem hinit
  have hall := initJNI_allSet w c hinit
  rcases hi : InitializeJNIMethods w c with ⟨ok, c1⟩
  rw [hi] at hinit hall
  cases hinit
  rcases h : acquireEnv w with _ | a
  · cases op <;>
      simp [runOp, IsAndroidAccessibilityEnabled, SpeakAndroidText,
        StopAndroidSpeech, IsAndroidTTSReady, HandleAndroidGesture, h] at hmem
  · cases op <;>
      simp only [runOp, IsAndroidAccessibilityEnabled, SpeakAndroidText,
        StopAndroidSpeech, IsAndroidTTSReady, HandleAndroidGesture, h, hi] at hmem ⊢ <;>
      split <;> rename_i hguard <;>
      first
        | exact hall
        | (rw [if_neg hguard] at hmem; cases a <;> simp [attachTrace, detachTrace] at hmem)

/-! ### Claims about the Android bridge -/

/-- Claim C3: every bridge operation, on every exit path, performs exactly as
many detaches as attaches it performed itself, and a call entered on an
already-attached thread never detaches it. -/
theorem C3_attach_detach_balance :
    ∀ (w : JNIWorld) (c : JNICache) (op : BridgeOp),
      (runOp w c op).2.count JNIEvent.attach = (runOp w c op).2.count JNIEvent.detach ∧
      (w.alreadyAttached = true → JNIEvent.detach ∉ (runOp w c op).2) := by
  intro w c op
  rcases runOp_trace_shape w c op with hnil | ⟨a, mid, ha, ht, hmA, hmD⟩
  · rw [hnil]
    simp
  · rw [ht]
    have cA : mid.count JNIEvent.attach = 0 := List.count_eq_zero.mpr hmA
    have cD : mid.count JNIEvent.detach = 0 := List.count_eq_zero.mpr hmD
    constructor
    · cases a <;> simp [attachTrace, detachTrace, List.count_append, cA, cD]
    · intro hw
      have haf : a = false := by
        simp [acquireEnv, hw] at ha
        exact ha
      subst haf
      simp [attachTrace, detachTrace, hmD]

/-- Witness for C3: a call on an already-attached thread with resolved
handles is balanced and performs no detach. -/
theorem C3_attach_detach_balance_witness :
    (runOp testWorldOk testCacheFull BridgeOp.stopSpeech).2.count JNIEvent.attach =
        (runOp testWorldOk testCacheFull BridgeOp.stopSpeech).2.count JNIEvent.detach ∧
      JNIEvent.detach ∉ (runOp testWorldOk testCacheFull BridgeOp.stopSpeech).2 :=
  ⟨(C3_attach_detach_balance testWorldOk testCacheFull BridgeOp.stopSpeech).1,
    (C3_attach_detach_balance testWorldOk testCacheFull BridgeOp.stopSpeech).2 (by decide)⟩

/-- Claim C4: when attach fails or method-handle resolution fails, each
bridge operation returns its default value (false / 0 / plain return) and
makes no call into the managed backend. -/
theorem C4_failure_defaults :
    ∀ (w : JNIWorld) (c : JNICache) (text : String) (force : Bool),
      ((acquireEnv w = none ∨
          (c.g_isScreenReaderEnabled = false ∧ (InitializeJNIMethods w c).1 = false)) →
        (IsAndroidAccessibilityEnabled w c).1 = false ∧
          (IsAndroidAccessibilityEnabled w c).2.2.filter isManagedCall = []) ∧
      ((acquireEnv w = none ∨
          (c.g_speak = false ∧ (InitializeJNIMethods w c).1 = false)) →
        (SpeakAndroidText w c text force).2.filter isManagedCall = []) ∧
      ((acquireEnv w = none ∨
          (c.g_stop = false ∧ (InitializeJNIMethods w c).1 = false)) →
        (StopAndroidSpeech w c).2.filter isManagedCall = []) ∧
      ((acquireEnv w = none ∨
          (c.g_isReady = false ∧ (InitializeJNIMethods w c).1 = false)) →
        (IsAndroidTTSReady w c).1 = false ∧
          (IsAndroidTTSReady w c).2.2.filter isManagedCall = []) ∧
      ((acquireEnv w = none ∨
          (c.g_handleGesture = false ∧ (InitializeJNIMethods w c).1 = false)) →
        (HandleAndroidGesture w c).1 = 0 ∧
          (HandleAndroidGesture w c).2.2.filter isManagedCall = []) := by
  intro w c text force
  refine ⟨?_, ?_, ?_, ?_, ?_⟩ <;>
    rintro (henv | ⟨hg, hinit⟩)
  · simp [IsAndroidAccessibilityEnabled, henv]
  · rcases hi : InitializeJNIMethods w c with ⟨ok, c1⟩
    rw [hi] at hinit
    cases hinit
    rcases h : acquireEnv w with _ | a
    · simp [IsAndroidAccessibilityEnabled, h]
    · cases a <;>
        simp [IsAndroidAccessibilityEnabled, h, hg, hi, attachTrace, detachTrace,
          isManagedCall]
  · simp [SpeakAndroidText, henv]
  · rcases hi : InitializeJNIMethods w c with ⟨ok, c1⟩
    rw [hi] at hinit
    cases hinit
    rcases h : acquireEnv w with _ | a
    · simp [SpeakAndroidText, h]
    · cases a <;>
        simp [SpeakAndroidText, h, hg, hi, attachTrace, detachTrace, isManagedCall]
  · simp [StopAndroidSpeech, henv]
  · rcases hi : InitializeJNIMethods w c with ⟨ok, c1⟩
    rw [hi] at hinit
    cases hinit
    rcases h : acquireEnv w with _ | a
    · simp [StopAndroidSpeech, h]
    · cases a <;>
        simp [StopAndroidSpeech, h, hg, hi, attachTrace, detachTrace, isManagedCall]
  · simp [IsAndroidTTSReady, henv]
  · rcases hi : InitializeJNIMethods w c with ⟨ok, c1⟩
    rw [hi] at hinit
    cases hinit
    rcases h : acquireEnv w with _ | a
    · simp [IsAndroidTTSReady, h]
    · cases a <;>
        simp [IsAndroidTTSReady, h, hg, hi, attachTrace, detachTrace, isManagedCall]
  · simp [HandleAndroidGesture, henv]
  · rcases hi : InitializeJNIMethods w c with ⟨ok, c1⟩
    rw [hi] at hinit
    cases hinit
    rcases h : acquireEnv w with _ | a
    · simp [HandleAndroidGesture, h]
    · cases a <;>
        simp [HandleAndroidGesture, h, hg, hi, attachTrace, detachTrace, isManagedCall]

/-- Witness for C4: all five operations degrade silently when
`AttachCurrentThread` fails. -/
theorem C4_failure_defaults_witness :
    ((IsAndroidAccessibilityEnabled testWorldAttachFail testCacheNull).1 = false ∧
      (IsAndroidAccessibilityEnabled testWorldAttachFail testCacheNull).2.2.filter
        isManagedCall = []) ∧
    (SpeakAndroidText testWorldAttachFail testCacheNull "x" false).2.filter
      isManagedCall = [] ∧
    (StopAndroidSpeech testWorldAttachFail testCacheNull).2.filter isManagedCall = [] ∧
    ((IsAndroidTTSReady testWorldAttachFail testCacheNull).1 = false ∧
      (IsAndroidTTSReady testWorldAttachFail testCacheNull).2.2.filter
        isManagedCall = []) ∧
    ((HandleAndroidGesture testWorldAttachFail testCacheNull).1 = 0 ∧
      (HandleAndroidGesture testWorldAttachFail testCacheNull).2.2.filter
        isManagedCall = []) := by
  obtain ⟨h1, h2, h3, h4, h5⟩ :=
    C4_failure_defaults testWorldAttachFail testCacheNull "x" false
  exact ⟨h1 (Or.inl (by decide)), h2 (Or.inl (by decide)), h3 (Or.inl (by decide)),
    h4 (Or.inl (by decide)), h5 (Or.inl (by decide))⟩

/-- Claim C5: method handles are resolved lazily — an operation invokes
`InitializeJNIMethods` only when its guarding handle is null; once an
operation's `InitializeJNIMethods` invocation succeeds, the cache has every
handle resolved, and from such a cache any further sequence of bridge calls
never re-resolves and leaves the cache unchanged. -/
theorem C5_lazy_resolution :
    (∀ (w : JNIWorld) (c : JNICache) (op : BridgeOp),
      JNIEvent.initCall ∈ (runOp w c op).2 → guardHandle c op = false) ∧
    (∀ (w : JNIWorld) (c : JNICache) (op : BridgeOp),
      JNIEvent.initCall ∈ (runOp w c op).2 → (InitializeJNIMethods w c).1 = true →
        allSet (runOp w c op).1 = true) ∧
    (∀ (c : JNICache) (ops : List (JNIWorld × BridgeOp)), allSet c = true →
      (runOps c ops).1 = c ∧ JNIEvent.initCall ∉ (runOps c ops).2) :=
  ⟨runOp_initCall_guard, runOp_init_success_allSet,
    fun c ops hc => runOps_allSet_skip c hc ops⟩

/-- Witness for C5: a first call resolves (null guard), leaves a fully
resolved cache, and later calls on a resolved cache never re-resolve. -/
theorem C5_lazy_resolution_witness :
    guardHandle testCacheNull BridgeOp.stopSpeech = false ∧
    allSet (runOp testWorldOk testCacheNull BridgeOp.stopSpeech).1 = true ∧
    ((runOps testCacheFull [(testWorldOk, BridgeOp.stopSpeech)]).1 = testCacheFull ∧
      JNIEvent.initCall ∉ (runOps testCacheFull [(testWorldOk, BridgeOp.stopSpeech)]).2) :=
  ⟨C5_lazy_resolution.1 testWorldOk testCacheNull BridgeOp.stopSpeech (by decide),
    C5_lazy_resolution.2.1 testWorldOk testCacheNull BridgeOp.stopSpeech
      (by decide) (by decide),
    C5_lazy_resolution.2.2 testCacheFull [(testWorldOk, BridgeOp.stopSpeech)] (by decide)⟩

/-- Claim C6: `InitializeJNIMethods` succeeds exactly when all three class
lookups and all five method-signature lookups succeed; any single failure
makes it return false. -/
theorem C6_initJNI_success_iff :
    ∀ (w : JNIWorld) (c : JNICache),
      (InitializeJNIMethods w c).1 = true ↔
        (w.findAccessibilityManagerClass = true ∧ w.isScreenReaderEnabledID = true ∧
          w.findTtsClass = true ∧ w.speakID = true ∧ w.stopID = true ∧
          w.isReadyID = true ∧ w.findGestureClass = true ∧
          w.handleGestureID = true) := by
  intro w c
  rcases w with ⟨aA, aS, fam, sr, ftts, sp, st, ir, fg, hg, r1, r2, r3⟩
  cases fam <;> cases sr <;> cases ftts <;> cases sp <;> cases st <;> cases ir <;>
    cases fg <;> cases hg <;> simp [InitializeJNIMethods]

/-- Claim C9: on success every cached handle is non-null; on failure the
handles assigned before the failing lookup keep their resolved values (no
rollback), and an operation whose own guard handle is already set skips
re-initialization. -/
theorem C9_partial_init_persists :
    (∀ (w : JNIWorld) (c : JNICache),
      (InitializeJNIMethods w c).1 = true → allSet (InitializeJNIMethods w c).2 = true) ∧
    (∀ (w : JNIWorld) (c : JNICache),
      w.findAccessibilityManagerClass = true → w.isScreenReaderEnabledID = true →
        (InitializeJNIMethods w c).2.g_isScreenReaderEnabled = true) ∧
    (∀ (w : JNIWorld) (c : JNICache),
      w.findAccessibilityManagerClass = true → w.isScreenReaderEnabledID = true →
        w.findTtsClass = true →
        (InitializeJNIMethods w c).2.g_speak = w.speakID ∧
          (InitializeJNIMethods w c).2.g_stop = w.stopID ∧
          (InitializeJNIMethods w c).2.g_isReady = w.isReadyID) ∧
    (∀ (w : JNIWorld) (c : JNICache), c.g_isScreenReaderEnabled = true →
      JNIEvent.initCall ∉ (IsAndroidAccessibilityEnabled w c).2.2) := by
  refine ⟨initJNI_allSet, ?_, ?_, ?_⟩
  · intro w c h1 h2
    rcases w with ⟨aA, aS, fam, sr, ftts, sp, st, ir, fg, hg, r1, r2, r3⟩
    cases fam <;> cases sr <;> cases ftts <;> cases sp <;> cases st <;> cases ir <;>
      cases fg <;> cases hg <;> simp_all [InitializeJNIMethods]
  · intro w c h1 h2 h3
    rcases w with ⟨aA, aS, fam, sr, ftts, sp, st, ir, fg, hg, r1, r2, r3⟩
    cases fam <;> cases sr <;> cases ftts <;> cases sp <;> cases st <;> cases ir <;>
      cases fg <;> cases hg <;> simp_all [InitializeJNIMethods]
  · intro w c hc
    rcases h : acquireEnv w with _ | a
    · simp [IsAndroidAccessibilityEnabled, h]
    · cases a <;> simp [IsAndroidAccessibilityEnabled, h, hc, attachTrace, detachTrace]

/-- Witness for C9: a full resolution sets every handle; a run failing at the
TTS class lookup still leaves `g_isScreenReaderEnabled` set; with only that
handle set, `IsAndroidAccessibilityEnabled` skips re-initialization. -/
theorem C9_partial_init_persists_witness :
    allSet (InitializeJNIMethods testWorldOk testCacheNull).2 = true ∧
    (InitializeJNIMethods testWorldNoTts testCacheNull).2.g_isScreenReaderEnabled = true ∧
    JNIEvent.initCall ∉ (IsAndroidAccessibilityEnabled testWorldOk testCachePartial).2.2 :=
  ⟨C9_partial_init_persists.1 testWorldOk testCacheNull (by decide),
    C9_partial_init_persists.2.1 testWorldNoTts testCacheNull (by decide) (by decide),
    C9_partial_init_persists.2.2.2 testWorldOk testCachePartial (by decide)⟩

/-- Claim C10: `HandleAndroidGesture` returns 0 on every failure path, and 0
is `GESTURE_NONE`, so a bridge failure is indistinguishable from a successful
call in which the managed gesture detector reported no gesture. -/
theorem C10_gesture_failure_indistinguishable :
    (∀ (w : JNIWorld) (c : JNICache), acquireEnv w = none →
      (HandleAndroidGesture w c).1 = GESTURE_NONE) ∧
    (∀ (w : JNIWorld) (c : JNICache),
      c.g_handleGesture = false → (InitializeJNIMethods w c).1 = false →
        (HandleAndroidGesture w c).1 = GESTURE_NONE) ∧
    (∀ (w : JNIWorld) (c : JNICache),
      c.g_handleGesture = true → acquireEnv w ≠ none →
        w.gestureResult = GESTURE_NONE →
        (HandleAndroidGesture w c).1 = GESTURE_NONE ∧
          JNIEvent.callHandleGesture ∈ (HandleAndroidGesture w c).2.2) := by
  refine ⟨?_, ?_, ?_⟩
  · intro w c h
    simp [HandleAndroidGesture, h, GESTURE_NONE]
  · intro w c hg hinit
    rcases hi : InitializeJNIMethods w c with ⟨ok, c1⟩
    rw [hi] at hinit
    cases hinit
    rcases h : acquireEnv w with _ | a
    · simp [HandleAndroidGesture, h, GESTURE_NONE]
    · cases a <;>
        simp [HandleAndroidGesture, h, hg, hi, GESTURE_NONE, attachTrace, detachTrace]
  · intro w c hg hne h0
    rcases h : acquireEnv w with _ | a
    · exact absurd h hne
    · cases a <;>
        simp [HandleAndroidGesture, h, hg, h0, GESTURE_NONE, attachTrace, detachTrace]

/-- Witness for C10: failed attach, failed resolution, and a successful call
reporting no gesture all yield `GESTURE_NONE`. -/
theorem C10_gesture_failure_indistinguishable_witness :
    (HandleAndroidGesture testWorldAttachFail testCacheNull).1 = GESTURE_NONE ∧
    (HandleAndroidGesture testWorldNoAm testCacheNull).1 = GESTURE_NONE ∧
    ((HandleAndroidGesture testWorldOk testCacheFull).1 = GESTURE_NONE ∧
      JNIEvent.callHandleGesture ∈ (HandleAndroidGesture testWorldOk testCacheFull).2.2) :=
  ⟨C10_gesture_failure_indistinguishable.1 testWorldAttachFail testCacheNull (by decide),
    C10_gesture_failure_indistinguishable.2.1 testWorldNoAm testCacheNull
      (by decide) (by decide),
    C10_gesture_failure_indistinguishable.2.2 testWorldOk testCacheFull
      (by decide) (by decide) (by decide)⟩

end devilution
